import Mathlib

/-!
Formal model of the deploy command of the flyctl repository
(internal/cli/internal/command/deploy/deploy.go), together with theorems
about its image acquisition logic, its remote tunnel nix build path,
and its release lifecycle control flow.

External collaborators (the Docker image resolver, the tunnel agent, the
SSH command channel, the API client, the filesystem and the network) are
modelled as environment parameters holding their observable outcomes.
Functions of this repository that are referenced by deploy.go but are not
among the given sources (pkg/retry, imgsrc.NewDeploymentTag) are modelled
from the specification and carry a doc comment saying so.
-/

namespace FlyDeploy

/-- Model of a Go error value: either a leaf error message, or a wrapping of
an underlying error with additional context, as produced by fmt.Errorf with
a percent-w verb. -/
inductive GoErr where
  | base (msg : String)
  | wrap (msg : String) (cause : GoErr)
deriving DecidableEq

/-- A Go map of build arguments, modelled as an association list with
distinct keys (Go maps have unique keys; iteration order is irrelevant for
the properties proved here). -/
abbrev Args := List (String × String)

/-- Go map indexing assignment, m[k] = v: replace the binding of k when it
is present, append the binding otherwise. -/
def mapInsert (m : Args) (k v : String) : Args :=
  match m with
  | [] => [(k, v)]
  | p :: rest => if p.1 = k then (k, v) :: rest else p :: mapInsert rest k v

/-- Go map lookup m[k], returning the bound value when present. -/
def lookupArg (m : Args) (k : String) : Option String :=
  match m with
  | [] => none
  | p :: rest => if p.1 = k then some p.2 else lookupArg rest k

/-- First-defined choice between two optional values, used to state the
merge precedence of build arguments. -/
def firstSome (a b : Option String) : Option String :=
  match a with
  | some v => some v
  | none => b

/-- Embeds the loop body of mergeBuildArgs (deploy.go:316-318): every
command-line argument is written into the map of configuration arguments,
overriding a configuration binding of the same key. -/
def mergeArgsPure (config : Args) (cli : Args) : Args :=
  cli.foldl (fun m p => mapInsert m p.1 p.2) config

/-- Heap of Go maps: build-argument maps are reference values in Go, so the
store maps an address to the current contents of the map at that address. -/
abbrev Store := Nat → Args

/-- Embeds mergeBuildArgs (deploy.go:305-321) with explicit reference
semantics for the Go map it receives: when the configuration map is nil a
fresh map is allocated (at the address fresh, assumed unused); otherwise
the command-line arguments are written into the map at the given address
in place. Returns the updated store and the address of the merged map. -/
def mergeBuildArgs (store : Store) (fresh : Nat) (argsRef : Option Nat) (cli : Args) :
    Store × Nat :=
  match argsRef with
  | some r => (fun x => if x = r then mergeArgsPure (store r) cli else store x, r)
  | none => (fun x => if x = fresh then mergeArgsPure [] cli else store x, fresh)

/-- Splits a character list at a separator character; structural recursion,
so that concrete path computations reduce inside the kernel. -/
def splitChars (sep : Char) : List Char → List (List Char)
  | [] => [[]]
  | c :: rest =>
    let r := splitChars sep rest
    if c = sep then [] :: r
    else
      match r with
      | [] => [[c]]
      | g :: gs => (c :: g) :: gs

/-- Joins path segments with slashes. -/
def joinSlash : List String → String
  | [] => ""
  | [s] => s
  | s :: rest => s ++ "/" ++ joinSlash rest

/-- Models Go path/filepath.Dir on cleaned slash-separated paths: the path
with its last element removed. -/
def filepathDir (p : String) : String :=
  match (splitChars '/' p.data).dropLast with
  | [] => "."
  | [[]] => "/"
  | ps => joinSlash (ps.map String.mk)

/-- Whether a path is absolute: whether it starts with a slash. -/
def startsWithSlash (p : String) : Bool :=
  match p.data with
  | [] => false
  | c :: _ => c = '/'

/-- Models Go path/filepath.Join on cleaned slash-separated paths. -/
def filepathJoin (a b : String) : String :=
  if a = "" then b
  else if b = "" then a
  else a ++ "/" ++ b

/-- Models Go path/filepath.Abs on cleaned slash-separated paths, with the
working directory passed explicitly: an absolute path is returned as is, a
relative path is joined to the working directory. -/
def filepathAbs (cwd p : String) : String :=
  if startsWithSlash p then p else filepathJoin cwd p

/-- Embeds resolveDockerfilePath (deploy.go:289-303): the path declared by
the app configuration, when nonempty, is joined to the directory of the
configuration file; otherwise the command-line dockerfile flag is taken;
a nonempty result is then made absolute (the deferred filepath.Abs call). -/
def resolveDockerfilePath (cfgDockerfile cfgPath flagDockerfile cwd : String) : String :=
  let path := if cfgDockerfile ≠ "" then filepathJoin (filepathDir cfgPath) cfgDockerfile
              else flagDockerfile
  if path ≠ "" then filepathAbs cwd path else path

/-- Embeds the build-target selection of determineImage (deploy.go:268-272):
opts.Target starts out empty; the configuration-declared Docker build target
is consulted first, and the command-line build-target flag only when the
configuration target is empty. -/
def resolveBuildTarget (cfgTarget flagTarget : String) : String :=
  if cfgTarget ≠ "" then cfgTarget
  else if flagTarget ≠ "" then flagTarget
  else ""

/-- The image artifact descriptor produced by every acquisition path
(imgsrc.DeploymentImage). -/
structure DeploymentImage where
  tag : String
  id : String
  size : Nat
deriving DecidableEq

/-- Modelled from the spec: imgsrc.NewDeploymentTag is not among the given
sources; the spec says only that the tag is a deterministic identity derived
from the application name and an optional qualifier, so any pure function of
the two serves. -/
def newDeploymentTag (appName qualifier : String) : String :=
  "registry.fly.io/" ++ appName ++ ":deployment-" ++ qualifier

/-- Descriptor of the remote builder machine; only its IP address is read
by deploy.go (through machines.IpAddress). -/
structure BuilderMachine where
  ip : String
deriving DecidableEq

/-- Descriptor of the remote builder app; deploy.go reads its name and its
organization slug. -/
structure BuilderApp where
  name : String
  orgSlug : String
deriving DecidableEq

/-- One probe attempt of the port readiness loop: the sleep taken before the
dial (the 1-second time.Sleep in the retried closure, deploy.go:405-408),
the timeout of the dial itself (the 1-second timeout of waitForLocalPort,
deploy.go:447-451), and the dial outcome. -/
structure ProbeEvent where
  sleepBefore : Nat
  dialTimeout : Nat
  result : Option GoErr
deriving DecidableEq

/-- The 1-second wait taken before each connect attempt (deploy.go:406). -/
def probeSleepSecs : Nat := 1

/-- The 1-second dial timeout of waitForLocalPort (deploy.go:448). -/
def waitForLocalPortTimeoutSecs : Nat := 1

/-- The probe attempts actually performed, in order: attempt i sleeps one
second, then dials with a one second timeout, observing the i-th dial
outcome of the environment. -/
def probeTrace (dial : Nat → Option GoErr) (attempts : Nat) : List ProbeEvent :=
  (List.range attempts).map fun i =>
    { sleepBefore := probeSleepSecs, dialTimeout := waitForLocalPortTimeoutSecs,
      result := dial i }

/-- Modelled from the spec: retry.Retry of pkg/retry is not among the given
sources. Per the spec, the bounded retry invokes the attempt function up to
the given number of times, returns success on the first success, and after
all attempts fail returns a retries-exhausted error wrapping the last
underlying error. The recursion tracks the index of the next attempt and
returns the number of attempts made together with the final outcome. -/
def retryGo (f : Nat → Option GoErr) (i : Nat) : Nat → Nat × Option GoErr
  | 0 => (i, none)
  | r + 1 =>
    match f i with
    | none => (i + 1, none)
    | some e =>
      if r = 0 then (i + 1, some (GoErr.wrap "retries exhausted" e))
      else retryGo f (i + 1) r

/-- Modelled from the spec: retry.Retry entry point, starting at the first
attempt. -/
def retryRetry (f : Nat → Option GoErr) (n : Nat) : Nat × Option GoErr :=
  retryGo f 0 n

/-- Environment of NixSourceBuild: the observable outcomes of its external
collaborators. The dial outcomes are indexed by attempt number; the sync
outcome is that of the external rsync process; the ssh outcome is that of
ssh.RunSSHCommand. -/
structure NixEnv where
  appName : String
  apiToken : String
  remoteBuilderMachine : Except GoErr (BuilderMachine × BuilderApp)
  agentEstablish : Except GoErr Unit
  connectToTunnel : Except GoErr Unit
  dialResults : Nat → Option GoErr
  rsyncRun : Option GoErr
  runSSHCommand : Except GoErr String

/-- Observable outcome of NixSourceBuild: the returned image and error, plus
the facts needed by the claims: whether a tunnel session (dialer plus
cancellation handle) was created, how often the cancellation handle ran,
the probe attempts and their trace, whether the sync step and the remote
build step ran, whether a sync failure was logged, and the remote command
and address handed to the ssh channel. -/
structure NixOutcome where
  img : Option DeploymentImage
  err : Option GoErr
  sessionCreated : Bool
  cancelCalls : Nat
  probeAttempts : Nat
  probeEvents : List ProbeEvent
  syncAttempted : Bool
  syncLoggedFailure : Bool
  sshAttempted : Bool
  sshCommand : Option String
  sshAddress : Option String

/-- Outcome of the exit paths of NixSourceBuild taken before the tunnel
session and its deferred cancellation handle exist (deploy.go:370-386). -/
def noSession (e : GoErr) : NixOutcome :=
  { img := none, err := some e, sessionCreated := false, cancelCalls := 0,
    probeAttempts := 0, probeEvents := [], syncAttempted := false,
    syncLoggedFailure := false, sshAttempted := false,
    sshCommand := none, sshAddress := none }

/-- Embeds NixSourceBuild (deploy.go:365-445). After the builder machine is
resolved, the agent session established and the tunnel dialer obtained, a
cancellable proxy context is created and its cancellation is deferred, so
every later exit path runs it exactly once. The readiness probe retries the
dial up to 10 times; on exhaustion the retry error is wrapped and returned.
A failing rsync run is only logged (fmt.Println at deploy.go:421); the
remote build command is built from the app name, the ambient API token and
the deployment tag and is executed over ssh against the bracketed builder
address; an ssh failure is wrapped and returned; on success a
DeploymentImage with the tag as both tag and id and the placeholder size 10
is returned. -/
def nixSourceBuild (env : NixEnv) : NixOutcome :=
  match env.remoteBuilderMachine with
  | .error e => noSession e
  | .ok (builderMachine, _builderApp) =>
  match env.agentEstablish with
  | .error e => noSession e
  | .ok _ =>
  match env.connectToTunnel with
  | .error e => noSession e
  | .ok _ =>
  match retryRetry env.dialResults 10 with
  | (attempts, some e) =>
    { img := none,
      err := some (GoErr.wrap "rsync proxy failed to connect after 10 seconds" e),
      sessionCreated := true, cancelCalls := 1,
      probeAttempts := attempts, probeEvents := probeTrace env.dialResults attempts,
      syncAttempted := false, syncLoggedFailure := false, sshAttempted := false,
      sshCommand := none, sshAddress := none }
  | (attempts, none) =>
    let imageTag := newDeploymentTag env.appName ""
    let builderAddress := "[" ++ builderMachine.ip ++ "]"
    let command :=
      "/data/source/" ++ env.appName ++ "/bin/build.sh" ++ " " ++ env.apiToken
        ++ " " ++ imageTag
    match env.runSSHCommand with
    | .error e =>
      { img := none, err := some (GoErr.wrap "" e),
        sessionCreated := true, cancelCalls := 1,
        probeAttempts := attempts, probeEvents := probeTrace env.dialResults attempts,
        syncAttempted := true, syncLoggedFailure := env.rsyncRun.isSome,
        sshAttempted := true, sshCommand := some command,
        sshAddress := some builderAddress }
    | .ok _ =>
      { img := some { tag := imageTag, id := imageTag, size := 10 }, err := none,
        sessionCreated := true, cancelCalls := 1,
        probeAttempts := attempts, probeEvents := probeTrace env.dialResults attempts,
        syncAttempted := true, syncLoggedFailure := env.rsyncRun.isSome,
        sshAttempted := true, sshCommand := some command,
        sshAddress := some builderAddress }

/-- The fields of the app configuration read by determineImage. The accessor
methods of app.Config (Dockerfile, DockerBuildTarget) are plain field reads
of the configuration and are modelled as fields; hasBuild models whether the
Build section pointer is nil; buildArgsRef is the reference held by
appConfig.Build.Args (none for a nil map). Fields of the Build section that
determineImage merely copies into the options (builtin, builder, buildpacks,
settings) are elided, as no claim concerns them. -/
structure AppCfg where
  path : String
  dockerfile : String
  dockerBuildTarget : String
  hasBuild : Bool
  buildImage : String
  buildArgsRef : Option Nat

/-- The options assembled for the Docker source build; only the fields the
claims concern are tracked. -/
structure ImageOptions where
  buildArgs : Args
  dockerfilePath : String
  target : String
deriving DecidableEq

/-- Environment of determineImage: the command-line selectors, the app
configuration, the working directory, the heap of build-argument maps, and
the observable outcomes of the external collaborators. Go functions that
return an image pointer and an error are modelled as pairs of options, so
the case of both being absent is representable. cliBuildArgs is the outcome
of parsing the command-line build-arg pairs. -/
structure DetEnv where
  nixFlag : Bool
  imageFlag : String
  dockerfileFlag : String
  buildTargetFlag : String
  cwd : String
  cliBuildArgs : Except GoErr Args
  resolveReference : Option DeploymentImage × Option GoErr
  buildImageResult : Option DeploymentImage × Option GoErr
  nixEnv : NixEnv
  cfg : AppCfg
  store : Store
  fresh : Nat

/-- Outcome of determineImage: the returned image and error, the heap after
the call (build-argument maps may have been mutated in place), and the
options handed to the Docker build resolver when the source-build path
assembled them. -/
structure DetOutcome where
  img : Option DeploymentImage
  err : Option GoErr
  store : Store
  buildOpts : Option ImageOptions

/-- Embeds fetchImageRef (deploy.go:323-335): the command-line image flag,
when nonempty; else the configuration-declared build image, when the Build
section is present and its image nonempty; else empty. The error result of
the source is constantly nil and is elided. -/
def fetchImageRef (env : DetEnv) : String :=
  if env.imageFlag ≠ "" then env.imageFlag
  else if env.cfg.hasBuild ∧ env.cfg.buildImage ≠ "" then env.cfg.buildImage
  else ""

/-- Embeds determineImage (deploy.go:200-285). With the nix selector set the
remote tunnel build decides the outcome alone (its image is returned only
with a nil error). Otherwise, with a nonempty image reference, the external
reference resolver outcome is returned as is. Otherwise the source-build
options are assembled: the build arguments are merged in place, the
Dockerfile path and the build target resolved, and the external Docker
build resolver is consulted; only on this path is the absence of both an
image and an error turned into the error "no image specified"
(deploy.go:275-277). -/
def determineImage (env : DetEnv) : DetOutcome :=
  if env.nixFlag then
    let o := nixSourceBuild env.nixEnv
    { img := match o.err with
             | some _ => none
             | none => o.img,
      err := o.err, store := env.store, buildOpts := none }
  else if fetchImageRef env ≠ "" then
    { img := env.resolveReference.1, err := env.resolveReference.2,
      store := env.store, buildOpts := none }
  else
    match env.cliBuildArgs with
    | .error e =>
      { img := none, err := some (GoErr.wrap "invalid build args" e),
        store := env.store, buildOpts := none }
    | .ok cli =>
      let merged := mergeBuildArgs env.store env.fresh
        (if env.cfg.hasBuild then env.cfg.buildArgsRef else none) cli
      let opts : ImageOptions :=
        { buildArgs := merged.1 merged.2,
          dockerfilePath := resolveDockerfilePath env.cfg.dockerfile env.cfg.path
            env.dockerfileFlag env.cwd,
          target := resolveBuildTarget env.cfg.dockerBuildTarget env.buildTargetFlag }
      { img := env.buildImageResult.1,
        err := if env.buildImageResult.2 = none ∧ env.buildImageResult.1 = none
               then some (GoErr.base "no image specified")
               else env.buildImageResult.2,
        store := merged.1, buildOpts := some opts }

/-- A release record; the fields read by run. -/
structure Release where
  id : String
  version : Nat
  evaluationID : String
  deploymentStrategy : String
deriving DecidableEq

/-- An optional pre-deployment release command; run reads its id. -/
structure ReleaseCmd where
  id : String
  commandText : String
deriving DecidableEq

/-- Environment of run: the outcome of determineAppConfig (its config
contents are carried in det.cfg; only its error matters to the control
flow), the two short-circuit selectors, the determineImage environment, and
the observable outcomes of the release collaborators: client.DeployImage
(reached through createRelease), watch.ReleaseCommand keyed by the release
command id, client.GetAppRelease for the re-fetch, and watch.Deployment
keyed by the evaluation id. -/
structure RunEnv where
  appConfigResult : Option GoErr
  buildOnly : Bool
  detach : Bool
  det : DetEnv
  deployImage : Except GoErr (Release × Option ReleaseCmd)
  watchReleaseCommand : String → Option GoErr
  getAppRelease : Except GoErr Release
  watchDeployment : String → Option GoErr

/-- Observable outcome of run: the returned error and which collaborators
were reached: release submission, the release-command wait, the release
re-fetch, and the deployment watch. -/
structure RunOutcome where
  err : Option GoErr
  releaseSubmitted : Bool
  releaseCommandWaited : Bool
  releaseRefetched : Bool
  deploymentWatched : Bool

/-- The dispatch step of run (deploy.go:149-158): with strategy IMMEDIATE
the run ends successfully without watching the deployment; otherwise the
deployment watch keyed by the evaluation id decides the outcome. -/
def runDispatch (env : RunEnv) (release : Release) (waited refetched : Bool) : RunOutcome :=
  if release.deploymentStrategy = "IMMEDIATE" then
    { err := none, releaseSubmitted := true, releaseCommandWaited := waited,
      releaseRefetched := refetched, deploymentWatched := false }
  else
    { err := env.watchDeployment release.evaluationID, releaseSubmitted := true,
      releaseCommandWaited := waited, releaseRefetched := refetched,
      deploymentWatched := true }

/-- Embeds run (deploy.go:102-159): verify the app config; acquire the
image, wrapping a failure; stop successfully when build-only is set; submit
the release; stop successfully when detach is set; when a release command
was produced, wait for it and re-fetch the release; finally dispatch on the
deployment strategy. -/
def run (env : RunEnv) : RunOutcome :=
  match env.appConfigResult with
  | some e =>
    { err := some e, releaseSubmitted := false, releaseCommandWaited := false,
      releaseRefetched := false, deploymentWatched := false }
  | none =>
  match (determineImage env.det).err with
  | some e =>
    { err := some (GoErr.wrap "failed to fetch an image or build from source" e),
      releaseSubmitted := false, releaseCommandWaited := false,
      releaseRefetched := false, deploymentWatched := false }
  | none =>
  if env.buildOnly then
    { err := none, releaseSubmitted := false, releaseCommandWaited := false,
      releaseRefetched := false, deploymentWatched := false }
  else
  match env.deployImage with
  | .error e =>
    { err := some e, releaseSubmitted := true, releaseCommandWaited := false,
      releaseRefetched := false, deploymentWatched := false }
  | .ok (release, releaseCommand) =>
  if env.detach then
    { err := none, releaseSubmitted := true, releaseCommandWaited := false,
      releaseRefetched := false, deploymentWatched := false }
  else
  match releaseCommand with
  | some rc =>
    match env.watchReleaseCommand rc.id with
    | some e =>
      { err := some e, releaseSubmitted := true, releaseCommandWaited := true,
        releaseRefetched := false, deploymentWatched := false }
    | none =>
      match env.getAppRelease with
      | .error e =>
        { err := some e, releaseSubmitted := true, releaseCommandWaited := true,
          releaseRefetched := false, deploymentWatched := false }
      | .ok release2 => runDispatch env release2 true true
  | none => runDispatch env release false false

/-! Helper lemmas about the bounded retry. -/

theorem retryGo_zero (f : Nat → Option GoErr) (i : Nat) : retryGo f i 0 = (i, none) := rfl

theorem retryGo_succ (f : Nat → Option GoErr) (i r : Nat) :
    retryGo f i (r + 1) =
      match f i with
      | none => (i + 1, none)
      | some e =>
        if r = 0 then (i + 1, some (GoErr.wrap "retries exhausted" e))
        else retryGo f (i + 1) r := rfl

theorem retryGo_fst_le (f : Nat → Option GoErr) (r : Nat) :
    ∀ i, (retryGo f i r).1 ≤ i + r := by
  induction r with
  | zero => intro i; simp [retryGo_zero]
  | succ n ih =>
    intro i
    rw [retryGo_succ]
    cases hf : f i with
    | none => simp
    | some e =>
      by_cases hn : n = 0
      · subst hn; simp
      · simp only [hn, if_false]
        have := ih (i + 1)
        omega

theorem retryGo_first_success (f : Nat → Option GoErr) (j : Nat) (hj : f j = none) :
    ∀ r i, i ≤ j → j < i + r → (∀ t, i ≤ t → t < j → (f t).isSome = true) →
      retryGo f i r = (j + 1, none) := by
  intro r
  induction r with
  | zero => intro i h1 h2 h3; omega
  | succ n ih =>
    intro i h1 h2 h3
    rw [retryGo_succ]
    by_cases hij : i = j
    · subst hij
      simp [hj]
    · have hlt : i < j := lt_of_le_of_ne h1 hij
      have hs := h3 i (le_refl i) hlt
      cases hf : f i with
      | none => rw [hf] at hs; simp at hs
      | some e =>
        simp only [hf]
        have hn : n ≠ 0 := by omega
        simp only [hn, if_false]
        exact ih (i + 1) (by omega) (by omega) (fun t ht1 ht2 => h3 t (by omega) ht2)

theorem retryGo_all_fail (f : Nat → Option GoErr) :
    ∀ r i, 1 ≤ r → (∀ t, i ≤ t → t < i + r → (f t).isSome = true) →
      ∃ e, f (i + r - 1) = some e ∧
        retryGo f i r = (i + r, some (GoErr.wrap "retries exhausted" e)) := by
  intro r
  induction r with
  | zero => intro i h _; omega
  | succ n ih =>
    intro i _ hall
    have hs := hall i (le_refl i) (by omega)
    cases hf : f i with
    | none => rw [hf] at hs; simp at hs
    | some e =>
      rw [retryGo_succ]
      simp only [hf]
      by_cases hn : n = 0
      · subst hn
        refine ⟨e, ?_, ?_⟩
        · simpa using hf
        · simp
      · rw [if_neg hn]
        obtain ⟨e2, he2, hrec⟩ :=
          ih (i + 1) (by omega) (fun t ht1 ht2 => hall t (by omega) (by omega))
        refine ⟨e2, ?_, ?_⟩
        · have hidx : i + (n + 1) - 1 = i + 1 + n - 1 := by omega
          rw [hidx]; exact he2
        · have hidx2 : i + (n + 1) = i + 1 + n := by omega
          rw [hidx2]; exact hrec

/-! Helper lemmas about the build-argument maps. -/

theorem lookupArg_mapInsert_self (m : Args) (k v : String) :
    lookupArg (mapInsert m k v) k = some v := by
  induction m with
  | nil => simp [mapInsert, lookupArg]
  | cons p rest ih =>
    by_cases hp : p.1 = k
    · simp [mapInsert, hp, lookupArg]
    · simp [mapInsert, hp, lookupArg, ih]

theorem lookupArg_mapInsert_other (m : Args) (k v j : String) (h : j ≠ k) :
    lookupArg (mapInsert m k v) j = lookupArg m j := by
  have hkj : ¬(k = j) := fun hkj => h hkj.symm
  induction m with
  | nil => simp [mapInsert, lookupArg, hkj]
  | cons p rest ih =>
    by_cases hp : p.1 = k
    · subst hp
      simp [mapInsert, lookupArg, hkj]
    · simp only [mapInsert, hp, if_false]
      by_cases hpj : p.1 = j
      · simp [lookupArg, hpj]
      · simp [lookupArg, hpj, ih]

theorem lookupArg_eq_none_of_not_mem (l : Args) (k : String)
    (h : ∀ p, p ∈ l → p.1 ≠ k) : lookupArg l k = none := by
  induction l with
  | nil => simp [lookupArg]
  | cons p rest ih =>
    have hp := h p (List.mem_cons_self p rest)
    simp only [lookupArg, hp, if_false]
    exact ih (fun q hq => h q (List.mem_cons_of_mem p hq))

theorem mergeArgs_cons (config : Args) (p : String × String) (rest : Args) :
    mergeArgsPure config (p :: rest) = mergeArgsPure (mapInsert config p.1 p.2) rest := rfl

theorem mergeArgs_lookup (cli : Args) :
    ∀ config : Args, (cli.map Prod.fst).Nodup → ∀ k,
      lookupArg (mergeArgsPure config cli) k =
        firstSome (lookupArg cli k) (lookupArg config k) := by
  induction cli with
  | nil => intro config _ k; simp [mergeArgsPure, lookupArg, firstSome]
  | cons p rest ih =>
    intro config h k
    rw [List.map_cons, List.nodup_cons] at h
    obtain ⟨hp, hrest⟩ := h
    rw [mergeArgs_cons, ih _ hrest k]
    by_cases hk : p.1 = k
    · subst hk
      have h1 : lookupArg rest p.1 = none := by
        refine lookupArg_eq_none_of_not_mem rest p.1 (fun q hq hq1 => hp ?_)
        rw [← hq1]
        exact List.mem_map_of_mem Prod.fst hq
      rw [h1]
      simp [lookupArg, firstSome, lookupArg_mapInsert_self]
    · have h2 : lookupArg (mapInsert config p.1 p.2) k = lookupArg config k :=
        lookupArg_mapInsert_other config p.1 p.2 k (fun hkj => hk hkj.symm)
      have h3 : lookupArg (p :: rest) k = lookupArg rest k := by
        simp [lookupArg, hk]
      rw [h2, h3]

/-! Helper lemmas about paths and about the remote tunnel build. -/

theorem filepathJoin_ne_empty (a b : String) (hb : b ≠ "") : filepathJoin a b ≠ "" := by
  unfold filepathJoin
  split_ifs with h1
  · exact hb
  · intro hc
    have hlen := congrArg String.length hc
    rw [String.length_append, String.length_append] at hlen
    have hs : ( "/" : String).length = 1 := rfl
    have he : ( "" : String).length = 0 := rfl
    rw [hs, he] at hlen
    omega

theorem nix_never_both_none (env : NixEnv) :
    ¬((nixSourceBuild env).img = none ∧ (nixSourceBuild env).err = none) := by
  cases hrb : env.remoteBuilderMachine with
  | error e => simp [nixSourceBuild, hrb, noSession]
  | ok p =>
  obtain ⟨bm, ba⟩ := p
  cases hae : env.agentEstablish with
  | error e => simp [nixSourceBuild, hrb, hae, noSession]
  | ok u =>
  cases hct : env.connectToTunnel with
  | error e => simp [nixSourceBuild, hrb, hae, hct, noSession]
  | ok u2 =>
  rcases hpr : retryRetry env.dialResults 10 with ⟨attempts, res⟩
  cases res with
  | some e => simp [nixSourceBuild, hrb, hae, hct, hpr]
  | none =>
    cases hss : env.runSSHCommand with
    | error e => simp [nixSourceBuild, hrb, hae, hct, hpr, hss]
    | ok resp => simp [nixSourceBuild, hrb, hae, hct, hpr, hss]

/-- C5: whenever the remote tunnel build path creates the tunnel session
with its background proxy task (a cancellable context whose cancellation is
deferred, deploy.go:396-398), the cancellation handle runs exactly once
before NixSourceBuild returns, on every exit path: readiness exhaustion,
remote build failure, and success; no handle exists, and none runs, on the
paths that fail before the session is created. -/
theorem nix_cancel_called_once (env : NixEnv)
    (h : (nixSourceBuild env).sessionCreated = true) :
    (nixSourceBuild env).cancelCalls = 1 := by
  cases hrb : env.remoteBuilderMachine with
  | error e => simp [nixSourceBuild, hrb, noSession] at h
  | ok p =>
  obtain ⟨bm, ba⟩ := p
  cases hae : env.agentEstablish with
  | error e => simp [nixSourceBuild, hrb, hae, noSession] at h
  | ok u =>
  cases hct : env.connectToTunnel with
  | error e => simp [nixSourceBuild, hrb, hae, hct, noSession] at h
  | ok u2 =>
  rcases hpr : retryRetry env.dialResults 10 with ⟨attempts, res⟩
  cases res with
  | some e => simp [nixSourceBuild, hrb, hae, hct, hpr]
  | none =>
    cases hss : env.runSSHCommand with
    | error e => simp [nixSourceBuild, hrb, hae, hct, hpr, hss]
    | ok resp => simp [nixSourceBuild, hrb, hae, hct, hpr, hss]

/-- A readily satisfiable environment for the remote tunnel build: builder
resolved, tunnel established, first dial succeeds, sync succeeds, remote
build succeeds. -/
def nixEnv0 : NixEnv :=
  { appName := "myapp", apiToken := "token123",
    remoteBuilderMachine := Except.ok ({ ip := "fdaa.0.1" }, { name := "builder-app", orgSlug := "org-slug" }),
    agentEstablish := Except.ok (), connectToTunnel := Except.ok (),
    dialResults := fun _ => none, rsyncRun := none,
    runSSHCommand := Except.ok "built" }

/-- Witness for the C5 theorem at a concrete environment in which the
session is created and the build succeeds. -/
theorem nix_cancel_called_once_witness : (nixSourceBuild nixEnv0).cancelCalls = 1 :=
  nix_cancel_called_once nixEnv0 (by decide)

/-- C4: a failure of the external synchronization process is logged but
does not abort the run: the returned image, the returned error, whether the
remote build command is executed, and the command itself are all
independent of the sync outcome; the remote build step runs exactly when
the sync step ran; and a sync failure on a run that reached the sync step
is logged. -/
theorem nix_sync_failure_nonfatal (env : NixEnv) (r : Option GoErr) :
    (nixSourceBuild { env with rsyncRun := r }).img = (nixSourceBuild env).img
  ∧ (nixSourceBuild { env with rsyncRun := r }).err = (nixSourceBuild env).err
  ∧ (nixSourceBuild { env with rsyncRun := r }).sshAttempted
      = (nixSourceBuild env).sshAttempted
  ∧ (nixSourceBuild { env with rsyncRun := r }).sshCommand
      = (nixSourceBuild env).sshCommand
  ∧ (nixSourceBuild env).sshAttempted = (nixSourceBuild env).syncAttempted
  ∧ (nixSourceBuild env).syncLoggedFailure
      = ((nixSourceBuild env).syncAttempted && env.rsyncRun.isSome) := by
  obtain ⟨appName, apiToken, rb, ae, ct, dial, rsync, sshr⟩ := env
  cases rb with
  | error e => simp [nixSourceBuild, noSession]
  | ok p =>
  obtain ⟨bm, ba⟩ := p
  cases ae with
  | error e => simp [nixSourceBuild, noSession]
  | ok u =>
  cases ct with
  | error e => simp [nixSourceBuild, noSession]
  | ok u2 =>
  rcases hpr : retryRetry dial 10 with ⟨attempts, res⟩
  cases res with
  | some e => simp [nixSourceBuild, hpr]
  | none =>
    cases sshr with
    | error e => simp [nixSourceBuild, hpr]
    | ok resp => simp [nixSourceBuild, hpr]

/-- C6: with the tunnel session created, the port readiness probe of
NixSourceBuild makes at most 10 connect attempts; every attempt sleeps one
second before dialing and dials with a one second timeout; the first
successful dial, at index j with every earlier dial failing, ends the probe
after exactly j + 1 attempts with a successful outcome; and when all 10
dials fail, exactly 10 attempts are made and the returned error wraps the
retries-exhausted error around the last underlying dial error. -/
theorem nix_probe_bounded (env : NixEnv)
    (h : (nixSourceBuild env).sessionCreated = true) :
    (nixSourceBuild env).probeAttempts ≤ 10
  ∧ (∀ e, e ∈ (nixSourceBuild env).probeEvents → e.sleepBefore = 1 ∧ e.dialTimeout = 1)
  ∧ (∀ j, j < 10 → env.dialResults j = none →
      (∀ i, i < j → (env.dialResults i).isSome = true) →
      (nixSourceBuild env).probeAttempts = j + 1
        ∧ (retryRetry env.dialResults 10).2 = none)
  ∧ ((∀ i, i < 10 → (env.dialResults i).isSome = true) →
      (nixSourceBuild env).probeAttempts = 10 ∧
      ∃ e, env.dialResults 9 = some e ∧
        (nixSourceBuild env).err =
          some (GoErr.wrap "rsync proxy failed to connect after 10 seconds"
            (GoErr.wrap "retries exhausted" e))) := by
  cases hrb : env.remoteBuilderMachine with
  | error e => simp [nixSourceBuild, hrb, noSession] at h
  | ok p =>
  obtain ⟨bm, ba⟩ := p
  cases hae : env.agentEstablish with
  | error e => simp [nixSourceBuild, hrb, hae, noSession] at h
  | ok u =>
  cases hct : env.connectToTunnel with
  | error e => simp [nixSourceBuild, hrb, hae, hct, noSession] at h
  | ok u2 =>
  have hA : (nixSourceBuild env).probeAttempts = (retryRetry env.dialResults 10).1 := by
    rcases hpr : retryRetry env.dialResults 10 with ⟨attempts, res⟩
    cases res with
    | some e => simp [nixSourceBuild, hrb, hae, hct, hpr]
    | none =>
      cases hss : env.runSSHCommand with
      | error e => simp [nixSourceBuild, hrb, hae, hct, hpr, hss]
      | ok resp => simp [nixSourceBuild, hrb, hae, hct, hpr, hss]
  have hE : (nixSourceBuild env).probeEvents
      = probeTrace env.dialResults (retryRetry env.dialResults 10).1 := by
    rcases hpr : retryRetry env.dialResults 10 with ⟨attempts, res⟩
    cases res with
    | some e => simp [nixSourceBuild, hrb, hae, hct, hpr]
    | none =>
      cases hss : env.runSSHCommand with
      | error e => simp [nixSourceBuild, hrb, hae, hct, hpr, hss]
      | ok resp => simp [nixSourceBuild, hrb, hae, hct, hpr, hss]
  have hErr : ∀ a E, retryRetry env.dialResults 10 = (a, some E) →
      (nixSourceBuild env).err
        = some (GoErr.wrap "rsync proxy failed to connect after 10 seconds" E) := by
    intro a E hre
    simp [nixSourceBuild, hrb, hae, hct, hre]
  refine ⟨?_, ?_, ?_, ?_⟩
  · rw [hA]
    exact retryGo_fst_le env.dialResults 10 0
  · intro e he
    rw [hE] at he
    simp only [probeTrace, List.mem_map, List.mem_range] at he
    obtain ⟨i, _, hei⟩ := he
    rw [← hei]
    exact ⟨rfl, rfl⟩
  · intro j hj hnone hearlier
    have hfs : retryGo env.dialResults 0 10 = (j + 1, none) :=
      retryGo_first_success env.dialResults j hnone 10 0 (Nat.zero_le j) (by omega)
        (fun t _ ht2 => hearlier t ht2)
    constructor
    · rw [hA]
      show (retryGo env.dialResults 0 10).1 = j + 1
      rw [hfs]
    · show (retryGo env.dialResults 0 10).2 = none
      rw [hfs]
  · intro hall
    obtain ⟨e, he, hr⟩ :=
      retryGo_all_fail env.dialResults 10 0 (by omega) (fun t _ ht2 => hall t (by omega))
    refine ⟨?_, e, he, ?_⟩
    · rw [hA]
      show (retryGo env.dialResults 0 10).1 = 10
      rw [hr]
    · exact hErr 10 (GoErr.wrap "retries exhausted" e) hr

/-- A concrete environment in which the tunnel session is created and every
dial attempt fails. -/
def nixEnvAllFail : NixEnv :=
  { nixEnv0 with dialResults := fun _ => some (GoErr.base "connection refused") }

/-- Witness for the C6 theorem at a concrete environment with the session
created and all ten dial attempts failing. -/
theorem nix_probe_bounded_witness :
    (nixSourceBuild nixEnvAllFail).probeAttempts ≤ 10
  ∧ (∀ e, e ∈ (nixSourceBuild nixEnvAllFail).probeEvents →
      e.sleepBefore = 1 ∧ e.dialTimeout = 1)
  ∧ (∀ j, j < 10 → nixEnvAllFail.dialResults j = none →
      (∀ i, i < j → (nixEnvAllFail.dialResults i).isSome = true) →
      (nixSourceBuild nixEnvAllFail).probeAttempts = j + 1
        ∧ (retryRetry nixEnvAllFail.dialResults 10).2 = none)
  ∧ ((∀ i, i < 10 → (nixEnvAllFail.dialResults i).isSome = true) →
      (nixSourceBuild nixEnvAllFail).probeAttempts = 10 ∧
      ∃ e, nixEnvAllFail.dialResults 9 = some e ∧
        (nixSourceBuild nixEnvAllFail).err =
          some (GoErr.wrap "rsync proxy failed to connect after 10 seconds"
            (GoErr.wrap "retries exhausted" e))) :=
  nix_probe_bounded nixEnvAllFail (by decide)

/-! Claims about the build-target and Dockerfile precedence (C1, C2). -/

/-- App configuration with no Build section, empty dockerfile and target. -/
def cfg0 : AppCfg :=
  { path := "/proj/fly.toml", dockerfile := "", dockerBuildTarget := "",
    hasBuild := false, buildImage := "", buildArgsRef := none }

/-- App configuration declaring a Docker build target. -/
def cfgC1 : AppCfg :=
  { path := "/proj/fly.toml", dockerfile := "", dockerBuildTarget := "stage-config",
    hasBuild := true, buildImage := "", buildArgsRef := none }

/-- Source-build environment in which both the configuration and the
command line declare a build target. -/
def detEnvC1 : DetEnv :=
  { nixFlag := false, imageFlag := "", dockerfileFlag := "",
    buildTargetFlag := "stage-cli", cwd := "/work",
    cliBuildArgs := Except.ok [],
    resolveReference := (none, none),
    buildImageResult := (some { tag := "t1", id := "i1", size := 5 }, none),
    nixEnv := nixEnv0, cfg := cfgC1, store := fun _ => [], fresh := 0 }

/-- C1 counterexample: with configuration target stage-config and a
non-empty command-line build-target flag stage-cli, the assembled image
options carry the configuration target, not the flag, so the flag does not
override the configuration-declared target. -/
theorem buildTarget_flag_not_overriding_cex :
    detEnvC1.buildTargetFlag ≠ ""
  ∧ ((determineImage detEnvC1).buildOpts).map ImageOptions.target
      ≠ some detEnvC1.buildTargetFlag
  ∧ ((determineImage detEnvC1).buildOpts).map ImageOptions.target
      = some detEnvC1.cfg.dockerBuildTarget := by
  refine ⟨by decide, by decide, by decide⟩

/-- C1 (amended): on the source-build path, the build target placed into
the assembled image options is the configuration-declared target whenever
that is non-empty; the command-line build-target flag is used only when the
configuration-declared target is empty. -/
theorem buildTarget_config_first (env : DetEnv) (cli : Args)
    (h1 : env.nixFlag = false) (h2 : fetchImageRef env = "")
    (h3 : env.cliBuildArgs = Except.ok cli) :
    ((determineImage env).buildOpts).map ImageOptions.target =
      some (if env.cfg.dockerBuildTarget = "" then env.buildTargetFlag
            else env.cfg.dockerBuildTarget) := by
  have hopts : ((determineImage env).buildOpts).map ImageOptions.target
      = some (resolveBuildTarget env.cfg.dockerBuildTarget env.buildTargetFlag) := by
    simp [determineImage, h1, h2, h3]
  rw [hopts]
  unfold resolveBuildTarget
  by_cases hc : env.cfg.dockerBuildTarget = ""
  · simp only [hc]
    by_cases hf : env.buildTargetFlag = ""
    · simp [hf]
    · simp [hf]
  · simp [hc]

/-- Witness for the C1 amended theorem at the concrete environment of the
counterexample. -/
theorem buildTarget_config_first_witness :
    ((determineImage detEnvC1).buildOpts).map ImageOptions.target =
      some (if detEnvC1.cfg.dockerBuildTarget = "" then detEnvC1.buildTargetFlag
            else detEnvC1.cfg.dockerBuildTarget) :=
  buildTarget_config_first detEnvC1 [] rfl (by decide) rfl

/-- C2 counterexample: with the configuration declaring docker/Dockerfile,
the configuration file at /proj/fly.toml and an explicit command-line path,
the resolved path is the configuration-relative one, so the command-line
path does not override the configuration-declared path. -/
theorem dockerfilePath_flag_not_overriding_cex :
    ( "/cli/Dockerfile" : String) ≠ ""
  ∧ resolveDockerfilePath "docker/Dockerfile" "/proj/fly.toml" "/cli/Dockerfile" "/cwd"
      ≠ "/cli/Dockerfile"
  ∧ resolveDockerfilePath "docker/Dockerfile" "/proj/fly.toml" "/cli/Dockerfile" "/cwd"
      = "/proj/docker/Dockerfile" := by
  refine ⟨by decide, by decide, by decide⟩

/-- C2 (amended): when the configuration declares a Dockerfile path, that
path is resolved relative to the directory of the configuration file and
used regardless of the command-line dockerfile flag; in particular the
declared relative path docker/Dockerfile with the configuration file at
/proj/fly.toml resolves to /proj/docker/Dockerfile; the command-line path
is used, normalized to an absolute path, only when the configuration
declares no Dockerfile path. -/
theorem dockerfilePath_config_first (cfgD cfgP flagD flagD2 cwd : String)
    (h : cfgD ≠ "") :
    resolveDockerfilePath cfgD cfgP flagD cwd = resolveDockerfilePath cfgD cfgP flagD2 cwd
  ∧ resolveDockerfilePath cfgD cfgP flagD cwd
      = filepathAbs cwd (filepathJoin (filepathDir cfgP) cfgD)
  ∧ resolveDockerfilePath "docker/Dockerfile" "/proj/fly.toml" "/cli/Dockerfile" "/anywhere"
      = "/proj/docker/Dockerfile"
  ∧ resolveDockerfilePath "" "/proj/fly.toml" "other/Dockerfile" "/cwd"
      = "/cwd/other/Dockerfile" := by
  have hne := filepathJoin_ne_empty (filepathDir cfgP) cfgD h
  refine ⟨?_, ?_, by decide, by decide⟩
  · unfold resolveDockerfilePath
    simp [h, hne]
  · unfold resolveDockerfilePath
    simp [h, hne]

/-- Witness for the C2 amended theorem at the concrete inputs of the
counterexample. -/
theorem dockerfilePath_config_first_witness :
    resolveDockerfilePath "docker/Dockerfile" "/proj/fly.toml" "/cli/Dockerfile" "/cwd"
      = resolveDockerfilePath "docker/Dockerfile" "/proj/fly.toml" "/cli2/Dockerfile" "/cwd"
  ∧ resolveDockerfilePath "docker/Dockerfile" "/proj/fly.toml" "/cli/Dockerfile" "/cwd"
      = filepathAbs "/cwd" (filepathJoin (filepathDir "/proj/fly.toml") "docker/Dockerfile")
  ∧ resolveDockerfilePath "docker/Dockerfile" "/proj/fly.toml" "/cli/Dockerfile" "/anywhere"
      = "/proj/docker/Dockerfile"
  ∧ resolveDockerfilePath "" "/proj/fly.toml" "other/Dockerfile" "/cwd"
      = "/cwd/other/Dockerfile" :=
  dockerfilePath_config_first "docker/Dockerfile" "/proj/fly.toml" "/cli/Dockerfile"
    "/cli2/Dockerfile" "/cwd" (by decide)

/-! Claim about the no-image guarantee (C3). -/

/-- Environment on the explicit-image-reference path whose external
reference resolver yields neither an image nor an error. -/
def detEnvC3 : DetEnv :=
  { nixFlag := false, imageFlag := "registry/app:v1", dockerfileFlag := "",
    buildTargetFlag := "", cwd := "/work", cliBuildArgs := Except.ok [],
    resolveReference := (none, none), buildImageResult := (none, none),
    nixEnv := nixEnv0, cfg := cfg0, store := fun _ => [], fresh := 0 }

/-- C3 counterexample: on the explicit-image-reference path, when the
external reference resolver returns neither an image nor an error,
determineImage itself returns with both the image and the error absent; the
no-image guard exists only on the Docker source-build path. -/
theorem determineImage_both_absent_cex :
    (determineImage detEnvC3).img = none ∧ (determineImage detEnvC3).err = none := by
  refine ⟨by decide, by decide⟩

/-- C3 (amended): determineImage can return with both the image and the
error absent only on the explicit-image-reference path, and only because
the external reference resolver returned neither; the remote tunnel path
and the Docker source-build path always produce an image or an error (the
latter through the no-image guard at deploy.go:275-277). -/
theorem determineImage_both_absent_only_ref_path (env : DetEnv)
    (h : (determineImage env).img = none ∧ (determineImage env).err = none) :
    env.nixFlag = false ∧ fetchImageRef env ≠ ""
      ∧ env.resolveReference = (none, none) := by
  obtain ⟨h1, h2⟩ := h
  by_cases hn : env.nixFlag = true
  · exfalso
    have hkey : (determineImage env).err = (nixSourceBuild env.nixEnv).err := by
      simp [determineImage, hn]
    rw [hkey] at h2
    have hkey2 : (nixSourceBuild env.nixEnv).img = none := by
      simp [determineImage, hn, h2] at h1
      exact h1
    exact nix_never_both_none env.nixEnv ⟨hkey2, h2⟩
  · have hnf : env.nixFlag = false := by
      cases hx : env.nixFlag
      · rfl
      · exact absurd hx hn
    by_cases hr : fetchImageRef env = ""
    · exfalso
      cases hcli : env.cliBuildArgs with
      | error e => simp [determineImage, hnf, hr, hcli] at h2
      | ok cli =>
        have hki : (determineImage env).img = env.buildImageResult.1 := by
          simp [determineImage, hnf, hr, hcli]
        have hke : (determineImage env).err
            = (if env.buildImageResult.2 = none ∧ env.buildImageResult.1 = none
               then some (GoErr.base "no image specified")
               else env.buildImageResult.2) := by
          simp [determineImage, hnf, hr, hcli]
        rw [hki] at h1
        rw [hke] at h2
        by_cases hbe : env.buildImageResult.2 = none
        · rw [if_pos ⟨hbe, h1⟩] at h2
          exact Option.noConfusion h2
        · rw [if_neg (fun hcon => hbe hcon.1)] at h2
          exact hbe h2
    · refine ⟨hnf, hr, ?_⟩
      have hki : (determineImage env).img = env.resolveReference.1 := by
        simp [determineImage, hnf, hr]
      have hke : (determineImage env).err = env.resolveReference.2 := by
        simp [determineImage, hnf, hr]
      rw [hki] at h1
      rw [hke] at h2
      have heta : env.resolveReference = (env.resolveReference.1, env.resolveReference.2) := rfl
      rw [heta, h1, h2]

/-- Witness for the C3 amended theorem: the hypothesis is satisfied at the
environment of the counterexample. -/
theorem determineImage_both_absent_only_ref_path_witness :
    detEnvC3.nixFlag = false ∧ fetchImageRef detEnvC3 ≠ ""
      ∧ detEnvC3.resolveReference = (none, none) :=
  determineImage_both_absent_only_ref_path detEnvC3 ⟨by decide, by decide⟩

/-! Claims about the build-argument merge (C9, C10). -/

/-- C9: the build-argument merge is the key-union of configuration and
command-line arguments in which the command-line value wins on every
conflicting key: a lookup in the merged map yields the command-line value
when the key is bound there and the configuration value otherwise; on the
concrete example of the spec, configuration args A=1, B=2 merged with
command-line args B=3, C=4 yield A=1, B=3, C=4. -/
theorem mergeBuildArgs_cli_wins (config cli : Args) (k : String)
    (h : (cli.map Prod.fst).Nodup) :
    lookupArg (mergeArgsPure config cli) k
      = firstSome (lookupArg cli k) (lookupArg config k)
  ∧ mergeArgsPure [( "A", "1" ), ( "B", "2" )] [( "B", "3" ), ( "C", "4" )]
      = [( "A", "1" ), ( "B", "3" ), ( "C", "4" )] :=
  ⟨mergeArgs_lookup cli config h k, by decide⟩

/-- Witness for the C9 theorem at the concrete maps of the spec example,
looked up at the conflicting key B. -/
theorem mergeBuildArgs_cli_wins_witness :
    lookupArg (mergeArgsPure [( "A", "1" ), ( "B", "2" )] [( "B", "3" ), ( "C", "4" )]) "B"
      = firstSome (lookupArg [( "B", "3" ), ( "C", "4" )] "B")
          (lookupArg [( "A", "1" ), ( "B", "2" )] "B")
  ∧ mergeArgsPure [( "A", "1" ), ( "B", "2" )] [( "B", "3" ), ( "C", "4" )]
      = [( "A", "1" ), ( "B", "3" ), ( "C", "4" )] :=
  mergeBuildArgs_cli_wins [( "A", "1" ), ( "B", "2" )] [( "B", "3" ), ( "C", "4" )] "B"
    (by decide)

/-- C10: on the source-build path, when the configuration-held
build-argument map is non-nil (an allocated Go map at address r), the merge
writes the command-line arguments into that same map in place: after
determineImage returns, the heap cell at r, still referenced by the
configuration object of the caller, holds the merged arguments, and those
are exactly the arguments placed into the assembled build options. -/
theorem mergeBuildArgs_mutates_in_place (env : DetEnv) (cli : Args) (r : Nat)
    (h1 : env.nixFlag = false) (h2 : fetchImageRef env = "")
    (h3 : env.cliBuildArgs = Except.ok cli)
    (h4 : env.cfg.hasBuild = true) (h5 : env.cfg.buildArgsRef = some r) :
    (determineImage env).store r = mergeArgsPure (env.store r) cli
  ∧ ((determineImage env).buildOpts).map ImageOptions.buildArgs
      = some (mergeArgsPure (env.store r) cli) := by
  constructor
  · simp [determineImage, h1, h2, h3, h4, h5, mergeBuildArgs]
  · simp [determineImage, h1, h2, h3, h4, h5, mergeBuildArgs]

/-- Configuration with a non-nil build-argument map at heap address 7. -/
def cfgC10 : AppCfg :=
  { path := "/proj/fly.toml", dockerfile := "", dockerBuildTarget := "",
    hasBuild := true, buildImage := "", buildArgsRef := some 7 }

/-- Source-build environment whose configuration holds the map A=1, B=2 at
address 7 and whose command line adds B=3, C=4. -/
def detEnvC10 : DetEnv :=
  { nixFlag := false, imageFlag := "", dockerfileFlag := "", buildTargetFlag := "",
    cwd := "/work", cliBuildArgs := Except.ok [( "B", "3" ), ( "C", "4" )],
    resolveReference := (none, none),
    buildImageResult := (some { tag := "t1", id := "i1", size := 5 }, none),
    nixEnv := nixEnv0, cfg := cfgC10,
    store := fun x => if x = 7 then [( "A", "1" ), ( "B", "2" )] else [], fresh := 0 }

/-- Witness for the C10 theorem at the concrete environment with a non-nil
configuration map. -/
theorem mergeBuildArgs_mutates_in_place_witness :
    (determineImage detEnvC10).store 7
      = mergeArgsPure (detEnvC10.store 7) [( "B", "3" ), ( "C", "4" )]
  ∧ ((determineImage detEnvC10).buildOpts).map ImageOptions.buildArgs
      = some (mergeArgsPure (detEnvC10.store 7) [( "B", "3" ), ( "C", "4" )]) :=
  mergeBuildArgs_mutates_in_place detEnvC10 [( "B", "3" ), ( "C", "4" )] 7
    rfl (by decide) rfl rfl rfl

/-! Claims about the release lifecycle controller (C7, C8). -/

/-- Source-build environment whose Docker build resolver produces an image,
so image acquisition succeeds. -/
def detEnvOk : DetEnv :=
  { nixFlag := false, imageFlag := "", dockerfileFlag := "", buildTargetFlag := "",
    cwd := "/work", cliBuildArgs := Except.ok [],
    resolveReference := (none, none),
    buildImageResult := (some { tag := "t2", id := "i2", size := 9 }, none),
    nixEnv := nixEnv0, cfg := cfg0, store := fun _ => [], fresh := 0 }

/-- A release with the IMMEDIATE deployment strategy. -/
def rel0 : Release :=
  { id := "rel-1", version := 1, evaluationID := "eval-1",
    deploymentStrategy := "IMMEDIATE" }

/-- C7: with the app config verified and image acquisition successful, the
build-only selector ends the run without error immediately after image
acquisition, with no release submitted; and the detach selector, on a run
whose release submission succeeded, ends the run without error before any
release-command wait or deployment watch. -/
theorem run_short_circuits (env : RunEnv) (rel : Release) (rc : Option ReleaseCmd)
    (hc : env.appConfigResult = none)
    (hi : (determineImage env.det).err = none) :
    (env.buildOnly = true → (run env).err = none ∧ (run env).releaseSubmitted = false)
  ∧ (env.buildOnly = false → env.deployImage = Except.ok (rel, rc) → env.detach = true →
      (run env).err = none ∧ (run env).releaseSubmitted = true
        ∧ (run env).releaseCommandWaited = false
        ∧ (run env).deploymentWatched = false) := by
  constructor
  · intro hb
    simp [run, hc, hi, hb]
  · intro hb hs hd
    simp [run, hc, hi, hb, hs, hd]

/-- Run environment exercising the detach short-circuit: config ok, image
acquired, detach set, release submission successful. -/
def runEnvDetach : RunEnv :=
  { appConfigResult := none, buildOnly := false, detach := true, det := detEnvOk,
    deployImage := Except.ok (rel0, none),
    watchReleaseCommand := fun _ => none, getAppRelease := Except.ok rel0,
    watchDeployment := fun _ => none }

/-- Witness for the C7 theorem at a concrete environment with detach set. -/
theorem run_short_circuits_witness :
    (runEnvDetach.buildOnly = true →
      (run runEnvDetach).err = none ∧ (run runEnvDetach).releaseSubmitted = false)
  ∧ (runEnvDetach.buildOnly = false →
      runEnvDetach.deployImage = Except.ok (rel0, none) → runEnvDetach.detach = true →
      (run runEnvDetach).err = none ∧ (run runEnvDetach).releaseSubmitted = true
        ∧ (run runEnvDetach).releaseCommandWaited = false
        ∧ (run runEnvDetach).deploymentWatched = false) :=
  run_short_circuits runEnvDetach rel0 none rfl (by decide)

/-- C8: on every run that reaches the dispatch step (config ok, image
acquired, neither short-circuit, submission successful, and either no
release command or a successfully awaited one followed by a successful
re-fetch), a final release strategy of IMMEDIATE makes the run return
success without invoking the deployment watch, and any other strategy makes
the run delegate to the deployment watch keyed by the evaluation id of the
release and return its outcome. -/
theorem run_dispatch_immediate (env : RunEnv) (rel relFinal : Release)
    (rc : Option ReleaseCmd)
    (hc : env.appConfigResult = none)
    (hi : (determineImage env.det).err = none)
    (hb : env.buildOnly = false) (hd : env.detach = false)
    (hs : env.deployImage = Except.ok (rel, rc))
    (hpath : (rc = none ∧ relFinal = rel)
      ∨ (∃ c, rc = some c ∧ env.watchReleaseCommand c.id = none
          ∧ env.getAppRelease = Except.ok relFinal)) :
    (relFinal.deploymentStrategy = "IMMEDIATE" →
      (run env).err = none ∧ (run env).deploymentWatched = false)
  ∧ (relFinal.deploymentStrategy ≠ "IMMEDIATE" →
      (run env).deploymentWatched = true
        ∧ (run env).err = env.watchDeployment relFinal.evaluationID) := by
  rcases hpath with ⟨hrc, hrf⟩ | ⟨c, hrc, hw, hg⟩
  · subst hrc
    subst hrf
    constructor
    · intro him
      simp [run, hc, hi, hb, hd, hs, runDispatch, him]
    · intro him
      simp [run, hc, hi, hb, hd, hs, runDispatch, him]
  · subst hrc
    constructor
    · intro him
      simp [run, hc, hi, hb, hd, hs, hw, hg, runDispatch, him]
    · intro him
      simp [run, hc, hi, hb, hd, hs, hw, hg, runDispatch, him]

/-- Run environment reaching the dispatch step with an IMMEDIATE release
and no release command. -/
def runEnvImmediate : RunEnv :=
  { appConfigResult := none, buildOnly := false, detach := false, det := detEnvOk,
    deployImage := Except.ok (rel0, none),
    watchReleaseCommand := fun _ => none, getAppRelease := Except.ok rel0,
    watchDeployment := fun _ => none }

/-- Witness for the C8 theorem at a concrete environment whose release has
the IMMEDIATE strategy. -/
theorem run_dispatch_immediate_witness :
    (rel0.deploymentStrategy = "IMMEDIATE" →
      (run runEnvImmediate).err = none
        ∧ (run runEnvImmediate).deploymentWatched = false)
  ∧ (rel0.deploymentStrategy ≠ "IMMEDIATE" →
      (run runEnvImmediate).deploymentWatched = true
        ∧ (run runEnvImmediate).err
            = runEnvImmediate.watchDeployment rel0.evaluationID) :=
  run_dispatch_immediate runEnvImmediate rel0 rel0 none rfl (by decide) rfl rfl rfl
    (Or.inl ⟨rfl, rfl⟩)

end FlyDeploy
